import Mathlib

/-!
Shallow embedding of the native resource binding layer of sqlplusplus
(src/oracle_helpers.h, src/oracle_helpers.cpp) and of the table column
tracking in src/table.cpp, together with proofs settling the frozen
claims about the natural language specification.

Conventions of the embedding:
- machine integers become Nat or Int; status codes are Int with
  DPI_SUCCESS = 0, as in the ODPI-C header;
- fallible member functions become functions returning Except
  OracleException;
- the opaque native handles (dpiVar, dpiConn, dpiStmt, dpiRowid) are
  modelled as Nat identifiers, and the native reference counting
  protocol (addRef, release, free on reaching zero) as an explicit
  state machine;
- the few native driver behaviours that a claim depends on and that are
  not part of this repository (slot initialization by dpiConn_newVar,
  the cursor behind dpiStmt_fetch, the string value behind a dpiRowid)
  are modelled from the specification and marked as such in their doc
  comments.
-/

/-- Embedding of dpiErrorInfo: the structured native error record
(code and message are the fields the wrapper layer reads). -/
structure DpiErrorInfo where
  code : Int
  message : String
deriving DecidableEq

/-- Embedding of sqlplusplus::OracleException (oracle_helpers.h lines
15 to 26, oracle_helpers.cpp lines 8 to 25).  The two constructors of
the C++ class become two constructors of an inductive type: withInfo
wraps a native error record plus a context string, contextOnly is the
error synthesized from a description string alone, carrying no native
error record. -/
inductive OracleException where
  | withInfo (info : DpiErrorInfo) (context : String)
  | contextOnly (context : String)
deriving DecidableEq

/-- DPI_SUCCESS, the status code for a successful native call. -/
def DPI_SUCCESS : Int := 0

/-- Embedding of dpiNativeTypeNum, restricted to the tags the wrapper
layer mentions (the DPI_NATIVE_TYPE_xxx constants used in
oracle_helpers.cpp and the default DPI_NATIVE_TYPE_NULL from
oracle_helpers.h line 84). -/
inductive DpiNativeTypeNum where
  | int64
  | uint64
  | float
  | double
  | bytes
  | timestamp
  | boolean
  | null
deriving DecidableEq

/-- The payload of a dpiData union.  The constructor records which
union member was last written; uninit stands for a slot no member of
which has been written yet.  Timestamps are modelled by an opaque
identifier (the wrapper only passes the pointer through), float and
double payloads by their opaque bit patterns (the wrapper performs no
arithmetic on them), byte buffers by their byte lists. -/
inductive DpiValue where
  | uninit
  | vBool (b : Bool)
  | vInt64 (i : Int)
  | vUint64 (u : Nat)
  | vFloat (bits : Nat)
  | vDouble (bits : Nat)
  | vTimestamp (ts : Nat)
  | vBytes (bs : List Nat)
deriving DecidableEq

/-- Embedding of dpiData: the native null flag plus the union payload. -/
structure DpiData where
  isNull : Bool
  value : DpiValue
deriving DecidableEq

/-- dpiData_getIsNull. -/
def dpiData_getIsNull (d : DpiData) : Bool := d.isNull

/-- dpiData_getBool.  Reading a union member other than the last one
written is undefined in C; the model returns a fixed default there,
which no claim relies on. -/
def dpiData_getBool (d : DpiData) : Bool :=
  match d.value with
  | .vBool b => b
  | _ => false

/-- dpiData_getInt64. -/
def dpiData_getInt64 (d : DpiData) : Int :=
  match d.value with
  | .vInt64 i => i
  | _ => 0

/-- dpiData_getUint64. -/
def dpiData_getUint64 (d : DpiData) : Nat :=
  match d.value with
  | .vUint64 u => u
  | _ => 0

/-- dpiData_getFloat. -/
def dpiData_getFloat (d : DpiData) : Nat :=
  match d.value with
  | .vFloat bits => bits
  | _ => 0

/-- dpiData_getDouble. -/
def dpiData_getDouble (d : DpiData) : Nat :=
  match d.value with
  | .vDouble bits => bits
  | _ => 0

/-- dpiData_getTimestamp. -/
def dpiData_getTimestamp (d : DpiData) : Nat :=
  match d.value with
  | .vTimestamp ts => ts
  | _ => 0

/-- dpiData_getBytes, returning the byte buffer the wrapper converts
to a string view. -/
def dpiData_getBytes (d : DpiData) : List Nat :=
  match d.value with
  | .vBytes bs => bs
  | _ => []

/-- Embedding of sqlplusplus::OracleData (oracle_helpers.h lines 70 to
86): a native type tag plus the data slot.  The C++ member is a
pointer into driver managed memory; the model stores the slot value. -/
structure OracleData where
  typeNum : DpiNativeTypeNum
  data : DpiData
deriving DecidableEq

instance : Inhabited OracleData :=
  ⟨{ typeNum := .null, data := { isNull := true, value := .uninit } }⟩

/-- OracleData::isNull (oracle_helpers.cpp lines 436 to 438). -/
def OracleData.isNull (d : OracleData) : Bool :=
  dpiData_getIsNull d.data

/-- OracleData::nativeType (oracle_helpers.cpp lines 440 to 442). -/
def OracleData.nativeType (d : OracleData) : DpiNativeTypeNum :=
  d.typeNum

/-- OracleData::as specialized at bool (oracle_helpers.cpp lines 444
to 448): checkErr(_typeNum == DPI_NATIVE_TYPE_BOOLEAN, ...) then
dpiData_getBool. -/
def OracleData.as_bool (d : OracleData) : Except OracleException Bool :=
  if d.typeNum = .boolean then .ok (dpiData_getBool d.data)
  else .error (.contextOnly "value for column is not bool")

/-- OracleData::as specialized at int64_t (oracle_helpers.cpp lines
450 to 454). -/
def OracleData.as_int64 (d : OracleData) : Except OracleException Int :=
  if d.typeNum = .int64 then .ok (dpiData_getInt64 d.data)
  else .error (.contextOnly "value for column is not int64_t")

/-- OracleData::as specialized at uint64_t (oracle_helpers.cpp lines
456 to 460).  The source really compares the stored tag against
DPI_NATIVE_TYPE_INT64, not DPI_NATIVE_TYPE_UINT64; the embedding keeps
that comparison. -/
def OracleData.as_uint64 (d : OracleData) : Except OracleException Nat :=
  if d.typeNum = .int64 then .ok (dpiData_getUint64 d.data)
  else .error (.contextOnly "value for column is not uint64_t")

/-- OracleData::as specialized at float (oracle_helpers.cpp lines 462
to 466). -/
def OracleData.as_float (d : OracleData) : Except OracleException Nat :=
  if d.typeNum = .float then .ok (dpiData_getFloat d.data)
  else .error (.contextOnly "value for column is not float")

/-- OracleData::as specialized at double (oracle_helpers.cpp lines 468
to 472). -/
def OracleData.as_double (d : OracleData) : Except OracleException Nat :=
  if d.typeNum = .double then .ok (dpiData_getDouble d.data)
  else .error (.contextOnly "value for column is not double")

/-- OracleData::as specialized at dpiTimestamp pointer
(oracle_helpers.cpp lines 474 to 478). -/
def OracleData.as_timestamp (d : OracleData) : Except OracleException Nat :=
  if d.typeNum = .timestamp then .ok (dpiData_getTimestamp d.data)
  else .error (.contextOnly "value for column is not timestamp")

/-- OracleData::as specialized at std::string_view (oracle_helpers.cpp
lines 480 to 485). -/
def OracleData.as_bytes (d : OracleData) : Except OracleException (List Nat) :=
  if d.typeNum = .bytes then .ok (dpiData_getBytes d.data)
  else .error (.contextOnly "value for column is not bytes")

/-- The native calls a wrapper operation can issue, recorded so that
theorems can state which native entry points were or were not
reached. -/
inductive NativeCall where
  | setFromBytes (pos : Nat) (bytes : List Nat)
  | contextDestroy
deriving DecidableEq

/-- Result of a wrapper operation: the native calls it issued, in
order, and its outcome. -/
structure CallResult (α : Type) where
  calls : List NativeCall
  outcome : Except OracleException α

/-- Embedding of OracleVariable::setFrom(uint32_t, std::string_view)
(oracle_helpers.cpp lines 144 to 153).  The string value is modelled
as its byte list; nativeOk tells whether the native
dpiVar_setFromBytes call, if reached, reports success, and lastError
is what the context's last-error slot would hold in that case. -/
def OracleVariable.setFrom (nativeOk : Bool) (lastError : DpiErrorInfo)
    (pos : Nat) (value : List Nat) : CallResult Unit :=
  if value.length ≥ 1073741822 then
    { calls := [],
      outcome := .error (.contextOnly
        "cannot set oracle variable from string variable longer than 1GB") }
  else
    { calls := [.setFromBytes pos value],
      outcome :=
        if nativeOk then .ok ()
        else .error (.withInfo lastError "copying from string data to variable") }

/-- What running the body of OracleContext::~OracleContext does:
either it returns normally or the process aborts.  The destructor is
implicitly noexcept, so the type has no error channel: no catchable
exception can leave it. -/
inductive TeardownOutcome where
  | returned
  | aborted
deriving DecidableEq

/-- Embedding of OracleContext::~OracleContext (oracle_helpers.cpp
lines 297 to 301): call dpiContext_destroy, and abort unless it
returned DPI_SUCCESS.  nativeRc is the status the native teardown
reports. -/
def OracleContext.dtor (nativeRc : Int) : List NativeCall × TeardownOutcome :=
  ([.contextDestroy], if nativeRc = DPI_SUCCESS then .returned else .aborted)

/-!
Reference counting state machine.

OracleVariable (oracle_helpers.cpp lines 99 to 137), OracleConnection
(lines 199 to 239), OracleStatement (lines 241 to 281) and OracleRowId
(lines 50 to 88) implement, line for line, the same copy constructor
(adopt the source pointer, addRef), move constructor (adopt, null the
source), copy assignment (release own pointer if non null, adopt,
addRef), move assignment (release own pointer if non null, null it,
swap with the source) and destructor (release if non null).  The state
machine below embeds that common shape once.  All instances in a
sequence descend from one owned handle, so a single native handle with
a single reference count suffices; count is that count, and frees is
how many times a release observed the count dropping to zero, which is
when the native driver deallocates the resource.
-/

/-- The state of one wrapper instance: not yet constructed or already
destroyed (dead), constructed but holding a null pointer (null, the
moved-from state), or holding the native handle (owns). -/
inductive InstState where
  | dead
  | null
  | owns
deriving DecidableEq

/-- Number of instances in the list currently holding the handle. -/
def nOwns : List InstState → Nat
  | [] => 0
  | x :: t => (if x = .owns then 1 else 0) + nOwns t

/-- Global state: the per-instance states, the native reference count
of the one handle, and how many times the native resource has been
deallocated (a release that brings the count from one to zero). -/
structure RCState where
  insts : List InstState
  count : Nat
  frees : Nat
deriving DecidableEq

/-- The state instance i is in; indices outside the list are dead. -/
def getI (s : RCState) (i : Nat) : InstState :=
  s.insts.getD i .dead

/-- The native release primitive (dpiVar_release and friends):
decrement the count, and deallocate the resource when the count
reaches zero. -/
def rcRelease (s : RCState) : RCState :=
  { s with count := s.count - 1,
           frees := if s.count = 1 then s.frees + 1 else s.frees }

/-- The native addRef primitive (dpiVar_addRef and friends). -/
def rcAddRef (s : RCState) : RCState :=
  { s with count := s.count + 1 }

/-- Copy constructor (for example oracle_helpers.cpp lines 99 to 104):
the new instance adopts the source pointer and calls addRef on it.
addRef on a null pointer is a native-reported error whose status the
constructor ignores, so it leaves the count unchanged. -/
def stepCopyCtor (s : RCState) (src : Nat) : RCState :=
  if getI s src = .dead then s
  else
    let s1 := { s with insts := s.insts ++ [getI s src] }
    if getI s src = .owns then rcAddRef s1 else s1

/-- Move constructor (for example oracle_helpers.cpp lines 106 to
111): the new instance adopts the source pointer and the source is set
to null; no native call is made. -/
def stepMoveCtor (s : RCState) (src : Nat) : RCState :=
  if getI s src = .dead then s
  else { s with insts := (s.insts.set src .null) ++ [getI s src] }

/-- Copy assignment (for example oracle_helpers.cpp lines 113 to 121):
release the currently held pointer if non null, adopt the source
pointer, addRef it.  The release does not null the member, so under
self assignment the adopted pointer is the just-released one. -/
def stepCopyAssign (s : RCState) (dst src : Nat) : RCState :=
  if getI s dst = .dead ∨ getI s src = .dead then s
  else
    let s1 := if getI s dst = .owns then rcRelease s else s
    let v := getI s src
    let s2 := { s1 with insts := s1.insts.set dst v }
    if v = .owns then rcAddRef s2 else s2

/-- Move assignment (for example oracle_helpers.cpp lines 123 to 131):
release the currently held pointer if non null and null it, then swap
pointers with the source. -/
def stepMoveAssign (s : RCState) (dst src : Nat) : RCState :=
  if getI s dst = .dead ∨ getI s src = .dead then s
  else
    let s1 := if getI s dst = .owns then rcRelease s else s
    let a := s1.insts.set dst .null
    { s1 with insts := (a.set dst (a.getD src .dead)).set src (a.getD dst .dead) }

/-- Destructor (for example oracle_helpers.cpp lines 133 to 137):
release the held pointer if non null; the instance is dead
afterwards. -/
def stepDestroy (s : RCState) (i : Nat) : RCState :=
  if getI s i = .dead then s
  else
    let s1 := if getI s i = .owns then rcRelease s else s
    { s1 with insts := s1.insts.set i .dead }

/-- One operation of a copy/move/destroy sequence, instances named by
index. -/
inductive RCOp where
  | copyCtor (src : Nat)
  | moveCtor (src : Nat)
  | copyAssign (dst src : Nat)
  | moveAssign (dst src : Nat)
  | destroy (i : Nat)
deriving DecidableEq

/-- Dispatch one operation. -/
def rcStep (s : RCState) : RCOp → RCState
  | .copyCtor src => stepCopyCtor s src
  | .moveCtor src => stepMoveCtor s src
  | .copyAssign dst src => stepCopyAssign s dst src
  | .moveAssign dst src => stepMoveAssign s dst src
  | .destroy i => stepDestroy s i

/-- The starting point of every sequence: one instance owning the
handle, native count one, nothing freed yet. -/
def rcInit : RCState :=
  { insts := [.owns], count := 1, frees := 0 }

/-- Run a sequence of operations from the initial state. -/
def rcRun (ops : List RCOp) : RCState :=
  ops.foldl rcStep rcInit

/-- True when no assignment in the sequence has the same instance as
source and target. -/
def noSelfAssign (ops : List RCOp) : Bool :=
  ops.all fun op =>
    match op with
    | .copyAssign dst src => dst != src
    | .moveAssign dst src => dst != src
    | _ => true

/-- The reference counting invariant: the native count equals the
number of live instances currently holding the handle, and the native
resource has been deallocated exactly once if no live instance holds
it any more (the count has reached zero) and not at all otherwise. -/
def RCInv (s : RCState) : Prop :=
  s.count = nOwns s.insts ∧ s.frees = (if nOwns s.insts = 0 then 1 else 0)

instance (s : RCState) : Decidable (RCInv s) := by
  unfold RCInv
  infer_instance

/-- Counting owners distributes over list append. -/
theorem nOwns_append (l m : List InstState) : nOwns (l ++ m) = nOwns l + nOwns m := by
  induction l with
  | nil => simp [nOwns]
  | cons x t ih => simp [nOwns, ih]; omega

/-- An index whose lookup is not the default is inside the list. -/
theorem lt_length_of_getD_ne {α : Type} (l : List α) (i : Nat) (d : α)
    (h : l.getD i d ≠ d) : i < l.length := by
  by_contra hc
  exact h (List.getD_eq_default l d (Nat.le_of_not_lt hc))

/-- Lookup at the position just set. -/
theorem getD_set_self {α : Type} (l : List α) (i : Nat) (v d : α)
    (h : i < l.length) : (l.set i v).getD i d = v := by
  induction l generalizing i with
  | nil => simp at h
  | cons x t ih =>
    cases i with
    | zero => simp
    | succ n =>
      simp only [List.set, List.getD_cons_succ]
      exact ih n (by simpa using h)

/-- Lookup away from the position set. -/
theorem getD_set_ne {α : Type} (l : List α) (i j : Nat) (v d : α)
    (h : i ≠ j) : (l.set i v).getD j d = l.getD j d := by
  induction l generalizing i j with
  | nil => simp
  | cons x t ih =>
    cases i with
    | zero =>
      cases j with
      | zero => exact absurd rfl h
      | succ m => simp
    | succ n =>
      cases j with
      | zero => simp
      | succ m =>
        simp only [List.set, List.getD_cons_succ]
        exact ih n m (fun hnm => h (by omega))

/-- How setting one position changes the owner count: the owner
contribution of the old value is exchanged for that of the new one. -/
theorem nOwns_set (l : List InstState) (i : Nat) (v : InstState)
    (h : i < l.length) :
    nOwns (l.set i v) + (if l.getD i .dead = .owns then 1 else 0)
      = nOwns l + (if v = .owns then 1 else 0) := by
  induction l generalizing i with
  | nil => simp at h
  | cons x t ih =>
    cases i with
    | zero =>
      by_cases hv : v = .owns <;> by_cases hx : x = .owns <;>
        simp [nOwns, hv, hx] <;> omega
    | succ n =>
      simp only [List.set, List.getD_cons_succ, nOwns]
      have := ih n (by simpa using h)
      omega

/-- A list with an owning entry has at least one owner. -/
theorem one_le_nOwns (l : List InstState) (i : Nat)
    (h : l.getD i .dead = .owns) : 1 ≤ nOwns l := by
  induction l generalizing i with
  | nil => simp [List.getD] at h
  | cons x t ih =>
    cases i with
    | zero =>
      simp only [List.getD_cons_zero] at h
      simp [nOwns, h]
    | succ n =>
      simp only [List.getD_cons_succ] at h
      have := ih n h
      simp [nOwns]
      omega

/-- A list with owning entries at two distinct positions has at least
two owners. -/
theorem two_le_nOwns (l : List InstState) (i j : Nat) (hij : i ≠ j)
    (hi : l.getD i .dead = .owns) (hj : l.getD j .dead = .owns) :
    2 ≤ nOwns l := by
  have hilt : i < l.length := lt_length_of_getD_ne l i .dead (by rw [hi]; simp)
  have hset := nOwns_set l i .null hilt
  rw [hi] at hset
  simp at hset
  have hj2 : (l.set i .null).getD j .dead = .owns := by
    rw [getD_set_ne l i j .null .dead hij]; exact hj
  have := one_le_nOwns (l.set i .null) j hj2
  omega

/-- The invariant, restated in a form without an if expression. -/
theorem rcInv_iff (s : RCState) :
    RCInv s ↔ s.count = nOwns s.insts ∧
      ((nOwns s.insts = 0 ∧ s.frees = 1) ∨ (0 < nOwns s.insts ∧ s.frees = 0)) := by
  unfold RCInv
  by_cases h : nOwns s.insts = 0
  all_goals (simp [h]; try omega)

/-- Copy construction preserves the reference counting invariant. -/
theorem rcInv_copyCtor (s : RCState) (src : Nat) (h : RCInv s) :
    RCInv (stepCopyCtor s src) := by
  rw [rcInv_iff] at h ⊢
  by_cases hsd : getI s src = .dead
  · simpa [stepCopyCtor, hsd] using h
  · cases hso : getI s src with
    | dead => exact absurd hso hsd
    | null =>
      simp [stepCopyCtor, hsd, hso, nOwns_append, nOwns]
      omega
    | owns =>
      have hso2 : s.insts.getD src .dead = .owns := hso
      have hone := one_le_nOwns s.insts src hso2
      simp [stepCopyCtor, hsd, hso, rcAddRef, nOwns_append, nOwns]
      omega

/-- Move construction preserves the reference counting invariant. -/
theorem rcInv_moveCtor (s : RCState) (src : Nat) (h : RCInv s) :
    RCInv (stepMoveCtor s src) := by
  rw [rcInv_iff] at h ⊢
  by_cases hsd : getI s src = .dead
  · simpa [stepMoveCtor, hsd] using h
  · have hslt := lt_length_of_getD_ne s.insts src .dead hsd
    have hset := nOwns_set s.insts src .null hslt
    cases hso : getI s src with
    | dead => exact absurd hso hsd
    | null =>
      have hso2 : s.insts.getD src .dead = .null := hso
      rw [hso2] at hset
      simp at hset
      simp [stepMoveCtor, hsd, hso, nOwns_append, nOwns]
      omega
    | owns =>
      have hso2 : s.insts.getD src .dead = .owns := hso
      rw [hso2] at hset
      simp at hset
      simp [stepMoveCtor, hsd, hso, nOwns_append, nOwns]
      omega

/-- Copy assignment between two distinct instances preserves the
reference counting invariant. -/
theorem rcInv_copyAssign (s : RCState) (dst src : Nat) (hne : dst ≠ src)
    (h : RCInv s) : RCInv (stepCopyAssign s dst src) := by
  rw [rcInv_iff] at h ⊢
  by_cases hdd : getI s dst = .dead
  · simpa [stepCopyAssign, hdd] using h
  · by_cases hsd : getI s src = .dead
    · simpa [stepCopyAssign, hsd] using h
    · have hdlt := lt_length_of_getD_ne s.insts dst .dead hdd
      cases hdo : getI s dst with
      | dead => exact absurd hdo hdd
      | null =>
        have hdo2 : s.insts.getD dst .dead = .null := hdo
        cases hso : getI s src with
        | dead => exact absurd hso hsd
        | null =>
          have hset := nOwns_set s.insts dst .null hdlt
          rw [hdo2] at hset
          simp at hset
          simp [stepCopyAssign, hdd, hsd, hdo, hso]
          omega
        | owns =>
          have hso2 : s.insts.getD src .dead = .owns := hso
          have hone := one_le_nOwns s.insts src hso2
          have hset := nOwns_set s.insts dst .owns hdlt
          rw [hdo2] at hset
          simp at hset
          simp [stepCopyAssign, hdd, hsd, hdo, hso, rcAddRef]
          omega
      | owns =>
        have hdo2 : s.insts.getD dst .dead = .owns := hdo
        have hone := one_le_nOwns s.insts dst hdo2
        cases hso : getI s src with
        | dead => exact absurd hso hsd
        | null =>
          have hset := nOwns_set s.insts dst .null hdlt
          rw [hdo2] at hset
          simp at hset
          by_cases hc : s.count = 1 <;>
            simp [stepCopyAssign, hdd, hsd, hdo, hso, rcRelease, hc] <;>
            omega
        | owns =>
          have hso2 : s.insts.getD src .dead = .owns := hso
          have htwo := two_le_nOwns s.insts dst src hne hdo2 hso2
          have hset := nOwns_set s.insts dst .owns hdlt
          rw [hdo2] at hset
          simp at hset
          by_cases hc : s.count = 1 <;>
            simp [stepCopyAssign, hdd, hsd, hdo, hso, rcRelease, rcAddRef, hc] <;>
            omega

/-- Move assignment between two distinct instances preserves the
reference counting invariant. -/
theorem rcInv_moveAssign (s : RCState) (dst src : Nat) (hne : dst ≠ src)
    (h : RCInv s) : RCInv (stepMoveAssign s dst src) := by
  rw [rcInv_iff] at h ⊢
  by_cases hdd : getI s dst = .dead
  · simpa [stepMoveAssign, hdd] using h
  · by_cases hsd : getI s src = .dead
    · simpa [stepMoveAssign, hsd] using h
    · have hdlt := lt_length_of_getD_ne s.insts dst .dead hdd
      have hslt := lt_length_of_getD_ne s.insts src .dead hsd
      have hga := getD_set_ne s.insts dst src .null .dead hne
      have hgb := getD_set_self s.insts dst .null .dead hdlt
      cases hdo : getI s dst with
      | dead => exact absurd hdo hdd
      | null =>
        have hdo2 : s.insts.getD dst .dead = .null := hdo
        cases hso : getI s src with
        | dead => exact absurd hso hsd
        | null =>
          have hso2 : s.insts.getD src .dead = .null := hso
          rw [hso2] at hga
          have hb2 := nOwns_set s.insts dst .null hdlt
          rw [hdo2] at hb2
          simp at hb2
          have hb3 := nOwns_set (s.insts.set dst .null) src .null
            (by rw [List.length_set]; exact hslt)
          rw [getD_set_ne s.insts dst src .null .dead hne, hso2] at hb3
          simp at hb3
          simp at hga hgb
          simp [stepMoveAssign, hdd, hsd, hdo, hso, hga, hgb]
          omega
        | owns =>
          have hso2 : s.insts.getD src .dead = .owns := hso
          rw [hso2] at hga
          have hone := one_le_nOwns s.insts src hso2
          have hb2 := nOwns_set s.insts dst .owns hdlt
          rw [hdo2] at hb2
          simp at hb2
          have hb3 := nOwns_set (s.insts.set dst .owns) src .null
            (by rw [List.length_set]; exact hslt)
          rw [getD_set_ne s.insts dst src .owns .dead hne, hso2] at hb3
          simp at hb3
          simp at hga hgb
          simp [stepMoveAssign, hdd, hsd, hdo, hso, hga, hgb]
          omega
      | owns =>
        have hdo2 : s.insts.getD dst .dead = .owns := hdo
        have hone := one_le_nOwns s.insts dst hdo2
        cases hso : getI s src with
        | dead => exact absurd hso hsd
        | null =>
          have hso2 : s.insts.getD src .dead = .null := hso
          rw [hso2] at hga
          have hb2 := nOwns_set s.insts dst .null hdlt
          rw [hdo2] at hb2
          simp at hb2
          have hb3 := nOwns_set (s.insts.set dst .null) src .null
            (by rw [List.length_set]; exact hslt)
          rw [getD_set_ne s.insts dst src .null .dead hne, hso2] at hb3
          simp at hb3
          simp at hga hgb
          by_cases hc : s.count = 1 <;>
            simp [stepMoveAssign, hdd, hsd, hdo, hso, hga, hgb, rcRelease, hc] <;>
            omega
        | owns =>
          have hso2 : s.insts.getD src .dead = .owns := hso
          rw [hso2] at hga
          have htwo := two_le_nOwns s.insts dst src hne hdo2 hso2
          have hb2 := nOwns_set s.insts dst .owns hdlt
          rw [hdo2] at hb2
          simp at hb2
          have hb3 := nOwns_set (s.insts.set dst .owns) src .null
            (by rw [List.length_set]; exact hslt)
          rw [getD_set_ne s.insts dst src .owns .dead hne, hso2] at hb3
          simp at hb3
          simp at hga hgb
          by_cases hc : s.count = 1 <;>
            simp [stepMoveAssign, hdd, hsd, hdo, hso, hga, hgb, rcRelease, hc] <;>
            omega

/-- Destruction preserves the reference counting invariant. -/
theorem rcInv_destroy (s : RCState) (i : Nat) (h : RCInv s) :
    RCInv (stepDestroy s i) := by
  rw [rcInv_iff] at h ⊢
  by_cases hid : getI s i = .dead
  · simpa [stepDestroy, hid] using h
  · have hilt := lt_length_of_getD_ne s.insts i .dead hid
    cases hio : getI s i with
    | dead => exact absurd hio hid
    | null =>
      have hio2 : s.insts.getD i .dead = .null := hio
      have hset := nOwns_set s.insts i .dead hilt
      rw [hio2] at hset
      simp at hset
      simp [stepDestroy, hid, hio]
      omega
    | owns =>
      have hio2 : s.insts.getD i .dead = .owns := hio
      have hone := one_le_nOwns s.insts i hio2
      have hset := nOwns_set s.insts i .dead hilt
      rw [hio2] at hset
      simp at hset
      by_cases hc : s.count = 1 <;>
        simp [stepDestroy, hid, hio, rcRelease, hc] <;>
        omega

/-- The reference counting invariant holds after any sequence of
copy, move, assign and destroy operations without self assignment. -/
theorem rcInv_run_aux (ops : List RCOp) (s : RCState) (h : RCInv s)
    (hops : noSelfAssign ops = true) : RCInv (ops.foldl rcStep s) := by
  induction ops generalizing s with
  | nil => exact h
  | cons op rest ih =>
    simp only [noSelfAssign, List.all_cons, Bool.and_eq_true] at hops
    obtain ⟨hop, hrest⟩ := hops
    refine ih (rcStep s op) ?_ hrest
    cases op with
    | copyCtor src => exact rcInv_copyCtor s src h
    | moveCtor src => exact rcInv_moveCtor s src h
    | copyAssign dst src =>
      exact rcInv_copyAssign s dst src (by simpa using hop) h
    | moveAssign dst src =>
      exact rcInv_moveAssign s dst src (by simpa using hop) h
    | destroy i => exact rcInv_destroy s i h

/-- Claim C3, as stated: for every finite sequence of copy, move,
assign and destroy operations starting from one owned handle, the
native count always equals the number of live instances holding the
handle and the native resource is freed exactly once, when the count
reaches zero.  This is false: self copy assignment of the sole owner
releases the handle (freeing the resource) and then calls addRef on
the freed handle, leaving a live owning instance whose later
destruction frees the resource a second time. -/
theorem c3_counterexample :
    ¬ (∀ ops : List RCOp, RCInv (rcRun ops)) ∧
    (rcRun [RCOp.copyAssign 0 0]).frees = 1 ∧
    nOwns (rcRun [RCOp.copyAssign 0 0]).insts = 1 ∧
    (rcRun [RCOp.copyAssign 0 0, RCOp.destroy 0]).frees = 2 := by
  refine ⟨fun hall => ?_, by decide, by decide, by decide⟩
  have hbad := hall [RCOp.copyAssign 0 0]
  revert hbad
  decide

/-- Claim C3, amended: for every finite sequence of copy
constructions, move constructions, copy assignments, move assignments
and destructions starting from one owned handle, in which no
assignment has the same instance as source and target, each copy of an
owning instance increments the native reference count by exactly one,
each move transfers ownership without changing the count and leaves
the source null, each destruction of an owning instance decrements the
count by one, and the native release that frees the resource happens
exactly once, exactly when the count reaches zero; at every point
(formally: after every such sequence, hence after every prefix of one)
the count equals the number of currently live instances holding the
handle.  All of this is the invariant RCInv, preserved from the
initial single-owner state. -/
theorem c3_refcount_invariant (ops : List RCOp)
    (hops : noSelfAssign ops = true) : RCInv (rcRun ops) :=
  rcInv_run_aux ops rcInit (by decide) hops

/-- Witness for c3_refcount_invariant at a concrete sequence
exercising every operation kind. -/
theorem c3_refcount_invariant_witness :
    noSelfAssign [RCOp.copyCtor 0, RCOp.moveCtor 1, RCOp.copyAssign 2 1,
      RCOp.destroy 0, RCOp.destroy 1, RCOp.destroy 2] = true ∧
    RCInv (rcRun [RCOp.copyCtor 0, RCOp.moveCtor 1, RCOp.copyAssign 2 1,
      RCOp.destroy 0, RCOp.destroy 1, RCOp.destroy 2]) :=
  ⟨by decide,
   c3_refcount_invariant [RCOp.copyCtor 0, RCOp.moveCtor 1, RCOp.copyAssign 2 1,
      RCOp.destroy 0, RCOp.destroy 1, RCOp.destroy 2] (by decide)⟩

/-- Claim C10: copy assignment and move assignment release the
currently held handle before acquiring or adopting the source's (in
the embedding, stepCopyAssign and stepMoveAssign factor through
rcRelease first); consequently self copy assignment of an instance
holding the sole reference drives the count to zero and frees the
native resource (the first two conjuncts describe the intermediate
state after the release half), after which the instance is still live
and owning while the resource is already freed, so the reference
counting invariant fails. -/
theorem c10_self_assignment (s : RCState) (i : Nat) (h : RCInv s)
    (hi : getI s i = .owns) (hsole : nOwns s.insts = 1) :
    (rcRelease s).count = 0 ∧
    (rcRelease s).frees = s.frees + 1 ∧
    getI (stepCopyAssign s i i) i = .owns ∧
    (stepCopyAssign s i i).frees = s.frees + 1 ∧
    ¬ RCInv (stepCopyAssign s i i) := by
  have hi2 : s.insts.getD i .dead = .owns := hi
  have hilt := lt_length_of_getD_ne s.insts i .dead (by rw [hi2]; simp)
  rw [rcInv_iff] at h
  have hf : s.frees = 0 := by omega
  have hc1 : s.count = 1 := by omega
  have hset := nOwns_set s.insts i .owns hilt
  rw [hi2] at hset
  simp at hset
  have hgs := getD_set_self s.insts i .owns .dead hilt
  simp at hgs
  refine ⟨by simp [rcRelease, hc1], by simp [rcRelease, hc1], ?_, ?_, ?_⟩
  · simp only [stepCopyAssign, hi, rcRelease, rcAddRef]
    simp [getI, hgs]
  · simp [stepCopyAssign, hi, rcRelease, rcAddRef, hc1]
  · rw [rcInv_iff]
    simp [stepCopyAssign, hi, rcRelease, rcAddRef, hc1, hf]
    omega

/-- Witness for c10_self_assignment at the initial single-owner
state. -/
theorem c10_self_assignment_witness :
    RCInv rcInit ∧ getI rcInit 0 = .owns ∧ nOwns rcInit.insts = 1 ∧
    ((rcRelease rcInit).count = 0 ∧
     (rcRelease rcInit).frees = rcInit.frees + 1 ∧
     getI (stepCopyAssign rcInit 0 0) 0 = .owns ∧
     (stepCopyAssign rcInit 0 0).frees = rcInit.frees + 1 ∧
     ¬ RCInv (stepCopyAssign rcInit 0 0)) :=
  ⟨by decide, by decide, by decide,
   c10_self_assignment rcInit 0 (by decide) (by decide) (by decide)⟩

/-- Claim C1: the specification says every as realization accepts
exactly the tag expected for its T and returns the stored value on a
match.  The code contradicts this for T equal to uint64: the uint64
specialization compares the stored tag against the int64 tag
(oracle_helpers.cpp line 458), so a cell whose stored tag is the
uint64 tag, holding the value 42, raises the context-only DriverError
"value for column is not uint64_t" instead of returning 42; a cell
tagged int64 is accepted by the uint64 accessor instead.  The in-repo
caller (the REPL result printer) calls the uint64 accessor precisely
on cells whose native type is the uint64 tag, so the code contradicts
its own caller and its own error message: a code bug. -/
theorem c1_as_uint64_wrong_tag_check :
    OracleData.as_uint64
        { typeNum := .uint64, data := { isNull := false, value := .vUint64 42 } }
      = .error (.contextOnly "value for column is not uint64_t") ∧
    OracleData.as_uint64
        { typeNum := .uint64, data := { isNull := false, value := .vUint64 42 } }
      ≠ .ok 42 ∧
    OracleData.as_uint64
        { typeNum := .int64, data := { isNull := false, value := .vUint64 7 } }
      = .ok 7 := by
  refine ⟨rfl, ?_, rfl⟩
  intro hcontra
  simp [OracleData.as_uint64] at hcontra

/-- Claim C2: setFrom with a value of size at least 1073741822 raises
a context-only DriverError and the native set-from-bytes call is never
reached (no native call is recorded); for smaller values the native
call is attempted with exactly the given position and bytes. -/
theorem c2_setFrom_size_guard (nativeOk : Bool) (lastError : DpiErrorInfo)
    (pos : Nat) (value : List Nat) :
    (value.length ≥ 1073741822 →
      OracleVariable.setFrom nativeOk lastError pos value =
        { calls := [],
          outcome := .error (.contextOnly
            "cannot set oracle variable from string variable longer than 1GB") }) ∧
    (value.length < 1073741822 →
      (OracleVariable.setFrom nativeOk lastError pos value).calls
        = [.setFromBytes pos value]) := by
  constructor
  · intro h
    simp [OracleVariable.setFrom, h]
  · intro h
    simp [OracleVariable.setFrom, Nat.not_le.mpr h]

/-- Witness for c2_setFrom_size_guard: a value of exactly the limit
size is rejected without a native call, a three-byte value reaches the
native call. -/
theorem c2_setFrom_size_guard_witness :
    ((List.replicate 1073741822 (0 : Nat)).length ≥ 1073741822 ∧
      OracleVariable.setFrom true { code := 0, message := "" } 0
          (List.replicate 1073741822 (0 : Nat)) =
        { calls := [],
          outcome := .error (.contextOnly
            "cannot set oracle variable from string variable longer than 1GB") }) ∧
    (([1, 2, 3] : List Nat).length < 1073741822 ∧
      (OracleVariable.setFrom true { code := 0, message := "" } 0 [1, 2, 3]).calls
        = [.setFromBytes 0 [1, 2, 3]]) := by
  constructor
  · have hlen : (List.replicate 1073741822 (0 : Nat)).length ≥ 1073741822 :=
      Nat.le_of_eq (List.length_replicate 1073741822 0).symm
    exact ⟨hlen, (c2_setFrom_size_guard true ⟨0, ""⟩ 0 _).1 hlen⟩
  · have hlen : ([1, 2, 3] : List Nat).length < 1073741822 := by
      norm_num
    exact ⟨hlen, (c2_setFrom_size_guard true ⟨0, ""⟩ 0 [1, 2, 3]).2 hlen⟩

/-- Claim C5: destroying the environment handle always invokes the
native teardown function (the contextDestroy call is recorded
unconditionally), and the destructor aborts the process exactly when
the teardown status is not DPI_SUCCESS.  The return type of the
embedded destructor has no error channel, mirroring the implicitly
noexcept C++ destructor: teardown failure can never surface as a
catchable DriverError, and an aborted outcome never returns control to
the caller. -/
theorem c5_context_teardown (nativeRc : Int) :
    (OracleContext.dtor nativeRc).1 = [.contextDestroy] ∧
    ((OracleContext.dtor nativeRc).2 = .aborted ↔ nativeRc ≠ DPI_SUCCESS) := by
  constructor
  · rfl
  · by_cases h : nativeRc = DPI_SUCCESS
    all_goals simp [OracleContext.dtor, h]

/-- Witness for c5_context_teardown at a failing and at a successful
native status. -/
theorem c5_context_teardown_witness :
    ((OracleContext.dtor 3).1 = [.contextDestroy] ∧
      ((OracleContext.dtor 3).2 = .aborted ↔ (3 : Int) ≠ DPI_SUCCESS)) ∧
    ((OracleContext.dtor 0).1 = [.contextDestroy] ∧
      ((OracleContext.dtor 0).2 = .aborted ↔ (0 : Int) ≠ DPI_SUCCESS)) :=
  ⟨c5_context_teardown 3, c5_context_teardown 0⟩

/-- Modelled from the spec: the native statement cursor behind
dpiStmt_fetch.  The wrapper OracleStatement::fetch (oracle_helpers.cpp
lines 401 to 407) only delegates to the native driver; the
specification describes the native cursor as advancing one row per
fetch and reporting whether a row was produced, with the statement
exhausted once no row remains.  The cursor state is the number of
rows the active result set still has to deliver. -/
structure DpiStmtCursor where
  remaining : Nat
deriving DecidableEq

/-- Modelled from the spec: dpiStmt_fetch returns the advanced cursor
and the found flag (an int: 1 when a row was produced, 0 when the
result set is exhausted). -/
def dpiStmt_fetch (c : DpiStmtCursor) : DpiStmtCursor × Nat :=
  match c.remaining with
  | 0 => (c, 0)
  | n + 1 => ({ remaining := n }, 1)

/-- Embedding of OracleStatement::fetch (oracle_helpers.cpp lines 401
to 407): call dpiStmt_fetch and return found != 0 (the native status
code path is the success path; a failing status raises and produces no
return value, so it does not occur in the fetch result sequence). -/
def OracleStatement.fetch (c : DpiStmtCursor) : DpiStmtCursor × Bool :=
  let r := dpiStmt_fetch c
  (r.1, r.2 != 0)

/-- Cursor state after n wrapper fetch calls. -/
def fetchState (c : DpiStmtCursor) : Nat → DpiStmtCursor
  | 0 => c
  | n + 1 => (OracleStatement.fetch (fetchState c n)).1

/-- Result of fetch call number n (zero based) in a run of repeated
fetch calls with no intervening execute. -/
def fetchRes (c : DpiStmtCursor) (n : Nat) : Bool :=
  (OracleStatement.fetch (fetchState c n)).2

/-- A fetch returns false exactly on an empty cursor. -/
theorem fetchRes_false_iff (c : DpiStmtCursor) (n : Nat) :
    fetchRes c n = false ↔ (fetchState c n).remaining = 0 := by
  unfold fetchRes OracleStatement.fetch dpiStmt_fetch
  cases h : (fetchState c n).remaining with
  | zero => simp [h]
  | succ m => simp [h]

/-- An empty cursor stays empty across a fetch. -/
theorem fetchState_stable (c : DpiStmtCursor) (n : Nat)
    (h : (fetchState c n).remaining = 0) :
    fetchState c (n + 1) = fetchState c n := by
  show (OracleStatement.fetch (fetchState c n)).1 = fetchState c n
  unfold OracleStatement.fetch dpiStmt_fetch
  simp [h]

/-- Claim C6: the fetch sequence is monotonic in exhaustion: once a
fetch on a statement returns false, every later fetch without an
intervening execute also returns false. -/
theorem c6_fetch_monotonic (c : DpiStmtCursor) (i j : Nat) (hij : i ≤ j)
    (hfalse : fetchRes c i = false) : fetchRes c j = false := by
  induction j with
  | zero =>
    have : i = 0 := Nat.le_zero.mp hij
    rwa [this] at hfalse
  | succ m ih =>
    by_cases hm : i ≤ m
    · have hres := ih hm
      have hempty := (fetchRes_false_iff c m).mp hres
      have hstable := fetchState_stable c m hempty
      rw [fetchRes_false_iff, hstable]
      exact hempty
    · have : i = m + 1 := by omega
      rwa [this] at hfalse

/-- Witness for c6_fetch_monotonic: a one-row cursor returns false on
the second fetch and still false on the fourth. -/
theorem c6_fetch_monotonic_witness :
    (1 : Nat) ≤ 3 ∧ fetchRes { remaining := 1 } 1 = false ∧
    fetchRes { remaining := 1 } 3 = false :=
  ⟨by norm_num, by decide, c6_fetch_monotonic { remaining := 1 } 1 3 (by norm_num) (by decide)⟩

/-!
OracleRowId (oracle_helpers.h lines 89 to 112, oracle_helpers.cpp
lines 50 to 96).  Native rowid handles are Nat identifiers; their
reference counts are a function from handle to count, and the textual
value the native driver reports for a handle is a fixed function
strOf.  An instance holds an optional handle and the cached string. -/

/-- Embedding of the OracleRowId instance state: the wrapped pointer
(none models nullptr) and the cached textual form _strValue. -/
structure OracleRowId where
  rowId : Option Nat
  strValue : String
deriving DecidableEq

/-- dpiRowid_addRef: bump the count of the referenced handle; on a
null pointer the native call fails with an ignored status and no count
changes. -/
def dpiRowid_addRef (r : Option Nat) (counts : Nat → Nat) : Nat → Nat :=
  match r with
  | some h => fun x => if x = h then counts x + 1 else counts x
  | none => counts

/-- dpiRowid_release: drop the count of the referenced handle. -/
def dpiRowid_release (r : Option Nat) (counts : Nat → Nat) : Nat → Nat :=
  match r with
  | some h => fun x => if x = h then counts x - 1 else counts x
  | none => counts

/-- Modelled from the spec: dpiRowid_getStringValue reports the
textual form of the row address held by the handle; strOf is that
per-handle text.  Calling it on a null pointer is outside the claims
(the C++ would dereference null); the model returns the empty
string there. -/
def dpiRowid_getStringValue (strOf : Nat → String) (r : Option Nat) : String :=
  match r with
  | some h => strOf h
  | none => ""

/-- OracleRowId::_initStrValue (oracle_helpers.cpp lines 90 to 96):
recompute the cached text from the instance's own current pointer. -/
def OracleRowId.initStrValue (strOf : Nat → String) (r : OracleRowId) : OracleRowId :=
  { r with strValue := dpiRowid_getStringValue strOf r.rowId }

/-- OracleRowId copy constructor (oracle_helpers.cpp lines 50 to 55):
adopt the source pointer, addRef it, recompute the cached text. -/
def OracleRowId.copyCtor (strOf : Nat → String) (counts : Nat → Nat)
    (other : OracleRowId) : OracleRowId × (Nat → Nat) :=
  (OracleRowId.initStrValue strOf { rowId := other.rowId, strValue := "" },
   dpiRowid_addRef other.rowId counts)

/-- OracleRowId move constructor (oracle_helpers.cpp lines 57 to 62):
adopt the source pointer, null the source, recompute the cached text
from the adopted pointer; no native reference counting call is made,
so the counts are not part of the signature.  The source keeps its now
stale cached text. -/
def OracleRowId.moveCtor (strOf : Nat → String) (other : OracleRowId) :
    OracleRowId × OracleRowId :=
  (OracleRowId.initStrValue strOf { rowId := other.rowId, strValue := "" },
   { other with rowId := none })

/-- OracleRowId copy assignment (oracle_helpers.cpp lines 64 to 72):
release the currently held pointer if non null, adopt the source
pointer, addRef it, recompute the cached text. -/
def OracleRowId.copyAssign (strOf : Nat → String) (counts : Nat → Nat)
    (target other : OracleRowId) : OracleRowId × (Nat → Nat) :=
  let counts1 :=
    match target.rowId with
    | some _ => dpiRowid_release target.rowId counts
    | none => counts
  (OracleRowId.initStrValue strOf { target with rowId := other.rowId },
   dpiRowid_addRef other.rowId counts1)

/-- OracleRowId move assignment (oracle_helpers.cpp lines 74 to 82):
release the currently held pointer if non null and null it, swap
pointers with the source (the target takes the source pointer, the
source is left null), recompute the cached text from the target's new
pointer.  The model passes target and source by value, so aliased self
assignment is not represented here; the reference counting effects of
self assignment are settled on the state machine model. -/
def OracleRowId.moveAssign (strOf : Nat → String) (counts : Nat → Nat)
    (target other : OracleRowId) : (OracleRowId × OracleRowId) × (Nat → Nat) :=
  let counts1 :=
    match target.rowId with
    | some _ => dpiRowid_release target.rowId counts
    | none => counts
  ((OracleRowId.initStrValue strOf { target with rowId := other.rowId },
    { other with rowId := none }),
   counts1)

/-- OracleRowId conversion to std::string_view (oracle_helpers.h lines
97 to 99): return the cached text. -/
def OracleRowId.toStringView (r : OracleRowId) : String :=
  r.strValue

/-- Claim C7: copy construction and copy assignment increment the
native reference count of the adopted handle and recompute the cached
text from the newly adopted pointer; move construction and move
assignment transfer the pointer without touching the adopted handle's
reference count (for assignment, provided the target held a different
handle, since releasing the target's old handle is a different count)
and recompute the cached text from the moved-to instance's own pointer
rather than transferring the source's cached text (the source's cached
text does not occur in any right hand side); conversion to text
returns the cached value. -/
theorem c7_rowid_copy_move (strOf : Nat → String) (counts : Nat → Nat)
    (target other : OracleRowId) (h : Nat)
    (hsrc : other.rowId = some h) (hdiff : target.rowId ≠ some h) :
    ((OracleRowId.copyCtor strOf counts other).1.rowId = other.rowId ∧
     (OracleRowId.copyCtor strOf counts other).1.strValue = strOf h ∧
     (OracleRowId.copyCtor strOf counts other).2 h = counts h + 1) ∧
    ((OracleRowId.copyAssign strOf counts target other).1.rowId = other.rowId ∧
     (OracleRowId.copyAssign strOf counts target other).1.strValue = strOf h ∧
     (OracleRowId.copyAssign strOf counts target other).2 h = counts h + 1) ∧
    ((OracleRowId.moveCtor strOf other).1.rowId = other.rowId ∧
     (OracleRowId.moveCtor strOf other).2.rowId = none ∧
     (OracleRowId.moveCtor strOf other).1.strValue = strOf h) ∧
    (((OracleRowId.moveAssign strOf counts target other).1.1.rowId = other.rowId ∧
      (OracleRowId.moveAssign strOf counts target other).1.2.rowId = none ∧
      (OracleRowId.moveAssign strOf counts target other).1.1.strValue = strOf h) ∧
     (OracleRowId.moveAssign strOf counts target other).2 h = counts h) ∧
    OracleRowId.toStringView target = target.strValue := by
  refine ⟨⟨rfl, ?_, ?_⟩, ⟨rfl, ?_, ?_⟩, ⟨rfl, rfl, ?_⟩, ⟨⟨rfl, rfl, ?_⟩, ?_⟩, rfl⟩
  · simp [OracleRowId.copyCtor, OracleRowId.initStrValue, dpiRowid_getStringValue, hsrc]
  · simp [OracleRowId.copyCtor, dpiRowid_addRef, hsrc]
  · simp [OracleRowId.copyAssign, OracleRowId.initStrValue, dpiRowid_getStringValue, hsrc]
  · cases ht : target.rowId with
    | none =>
      simp [OracleRowId.copyAssign, ht, dpiRowid_addRef, hsrc]
    | some g =>
      have hg : g ≠ h := fun hgh => hdiff (by rw [ht, hgh])
      simp [OracleRowId.copyAssign, ht, dpiRowid_addRef, dpiRowid_release, hsrc, hg,
        Ne.symm hg]
  · simp [OracleRowId.moveCtor, OracleRowId.initStrValue, dpiRowid_getStringValue, hsrc]
  · simp [OracleRowId.moveAssign, OracleRowId.initStrValue, dpiRowid_getStringValue, hsrc]
  · cases ht : target.rowId with
    | none =>
      simp [OracleRowId.moveAssign, ht]
    | some g =>
      have hg : g ≠ h := fun hgh => hdiff (by rw [ht, hgh])
      simp [OracleRowId.moveAssign, ht, dpiRowid_release, hg, Ne.symm hg]

/-- Witness for c7_rowid_copy_move: two distinct handles with known
texts and counts. -/
theorem c7_rowid_copy_move_witness :
    ({ rowId := some 0, strValue := "STALE" } : OracleRowId).rowId = some 0 ∧
    ({ rowId := some 1, strValue := "OLD" } : OracleRowId).rowId ≠ some 0 ∧
    (((OracleRowId.copyCtor (fun n => if n = 0 then "ROWA" else "ROWB") (fun _ => 5)
        { rowId := some 0, strValue := "STALE" }).1.rowId = some 0 ∧
      (OracleRowId.copyCtor (fun n => if n = 0 then "ROWA" else "ROWB") (fun _ => 5)
        { rowId := some 0, strValue := "STALE" }).1.strValue =
          (fun n => if n = 0 then "ROWA" else "ROWB") 0 ∧
      (OracleRowId.copyCtor (fun n => if n = 0 then "ROWA" else "ROWB") (fun _ => 5)
        { rowId := some 0, strValue := "STALE" }).2 0 = (fun _ => (5 : Nat)) 0 + 1) ∧
     ((OracleRowId.copyAssign (fun n => if n = 0 then "ROWA" else "ROWB") (fun _ => 5)
        { rowId := some 1, strValue := "OLD" } { rowId := some 0, strValue := "STALE" }).1.rowId = some 0 ∧
      (OracleRowId.copyAssign (fun n => if n = 0 then "ROWA" else "ROWB") (fun _ => 5)
        { rowId := some 1, strValue := "OLD" } { rowId := some 0, strValue := "STALE" }).1.strValue =
          (fun n => if n = 0 then "ROWA" else "ROWB") 0 ∧
      (OracleRowId.copyAssign (fun n => if n = 0 then "ROWA" else "ROWB") (fun _ => 5)
        { rowId := some 1, strValue := "OLD" } { rowId := some 0, strValue := "STALE" }).2 0 = (fun _ => (5 : Nat)) 0 + 1) ∧
     ((OracleRowId.moveCtor (fun n => if n = 0 then "ROWA" else "ROWB")
        { rowId := some 0, strValue := "STALE" }).1.rowId = some 0 ∧
      (OracleRowId.moveCtor (fun n => if n = 0 then "ROWA" else "ROWB")
        { rowId := some 0, strValue := "STALE" }).2.rowId = none ∧
      (OracleRowId.moveCtor (fun n => if n = 0 then "ROWA" else "ROWB")
        { rowId := some 0, strValue := "STALE" }).1.strValue =
          (fun n => if n = 0 then "ROWA" else "ROWB") 0) ∧
     (((OracleRowId.moveAssign (fun n => if n = 0 then "ROWA" else "ROWB") (fun _ => 5)
        { rowId := some 1, strValue := "OLD" } { rowId := some 0, strValue := "STALE" }).1.1.rowId = some 0 ∧
       (OracleRowId.moveAssign (fun n => if n = 0 then "ROWA" else "ROWB") (fun _ => 5)
        { rowId := some 1, strValue := "OLD" } { rowId := some 0, strValue := "STALE" }).1.2.rowId = none ∧
       (OracleRowId.moveAssign (fun n => if n = 0 then "ROWA" else "ROWB") (fun _ => 5)
        { rowId := some 1, strValue := "OLD" } { rowId := some 0, strValue := "STALE" }).1.1.strValue =
          (fun n => if n = 0 then "ROWA" else "ROWB") 0) ∧
      (OracleRowId.moveAssign (fun n => if n = 0 then "ROWA" else "ROWB") (fun _ => 5)
        { rowId := some 1, strValue := "OLD" } { rowId := some 0, strValue := "STALE" }).2 0 = (fun _ => (5 : Nat)) 0) ∧
     OracleRowId.toStringView { rowId := some 1, strValue := "OLD" } =
       ({ rowId := some 1, strValue := "OLD" } : OracleRowId).strValue) :=
  ⟨rfl, by decide,
   c7_rowid_copy_move (fun n => if n = 0 then "ROWA" else "ROWB") (fun _ => 5)
     { rowId := some 1, strValue := "OLD" } { rowId := some 0, strValue := "STALE" } 0
     rfl (by decide)⟩

/-!
OracleVariable as a record (oracle_helpers.h lines 114 to 146).  The
reference counting side of copy/move/assign/destroy is settled on the
state machine model above; this record model captures which fields the
special member functions transfer: the copy and move constructors
initialize only _ctx and _var in their member initializer lists, so
_nativeType stays uninitialized (modelled by an explicit junk
parameter standing for the indeterminate memory contents) and
_allocatedData is default constructed empty; the assignment operators
assign only _ctx and _var, leaving the target's _nativeType and
_allocatedData untouched. -/

/-- Embedding of OracleConnection::VariableOpts::ByteBufferOpts
(oracle_helpers.h lines 162 to 165). -/
structure ByteBufferOpts where
  size : Nat
  sizeIsBytes : Bool
deriving DecidableEq

/-- Embedding of OracleConnection::VariableOpts::ObjectOpts
(oracle_helpers.h lines 166 to 168); the native object type descriptor
is an opaque handle. -/
structure ObjectOpts where
  objType : Nat
deriving DecidableEq

/-- Embedding of the mpark::variant of byte buffer and object type
options (oracle_helpers.h line 174). -/
inductive VariantOpts where
  | byteBuffer (b : ByteBufferOpts)
  | object (o : ObjectOpts)
deriving DecidableEq

/-- Embedding of OracleConnection::VariableOpts (oracle_helpers.h
lines 161 to 175); the Oracle wire type is an opaque number. -/
structure VariableOpts where
  dbTypeNum : Nat
  nativeTypeNum : DpiNativeTypeNum
  maxArraySize : Nat
  isArray : Bool
  opts : VariantOpts
deriving DecidableEq

/-- Embedding of the OracleVariable record state: context back
reference (a handle, none for a moved-from context pointer is not
possible here since _ctx is always copied), element native type tag,
native variable handle, and the slot view built at creation. -/
structure OracleVariable where
  ctx : Option Nat
  nativeType : DpiNativeTypeNum
  var : Option Nat
  allocatedData : List OracleData
deriving DecidableEq

/-- Modelled from the spec: the data array dpiConn_newVar returns has
maxArraySize slots, each reporting null until a value is written into
it. -/
def freshDpiData : DpiData :=
  { isNull := true, value := .uninit }

/-- Embedding of OracleConnection::newArrayVariable
(oracle_helpers.cpp lines 356 to 389): after the native call succeeds,
the wrapper builds one OracleData per slot, each tagged with the
configured opts.nativeTypeNum and pointing at the corresponding native
slot, and hands everything to the private OracleVariable
constructor. -/
def OracleConnection.newArrayVariable (ctx varHandle : Nat)
    (opts : VariableOpts) : OracleVariable :=
  { ctx := some ctx,
    nativeType := opts.nativeTypeNum,
    var := some varHandle,
    allocatedData :=
      List.replicate opts.maxArraySize
        { typeNum := opts.nativeTypeNum, data := freshDpiData } }

/-- OracleVariable::allocatedData (oracle_helpers.cpp lines 195 to
197). -/
def OracleVariable.allocatedDataOf (v : OracleVariable) : List OracleData :=
  v.allocatedData

/-- Modelled from the spec: the effect of the native
dpiVar_setFromBytes on the slot array; setFrom copies byte data into
slot pos, which afterwards reports non null.  Other slots are
untouched. -/
def OracleVariable.writeSlot (v : OracleVariable) (pos : Nat)
    (bytes : List Nat) : OracleVariable :=
  let cell : OracleData :=
    { typeNum := (v.allocatedData.getD pos default).typeNum,
      data := { isNull := false, value := .vBytes bytes } }
  { v with allocatedData := v.allocatedData.set pos cell }

/-- OracleVariable copy constructor (oracle_helpers.cpp lines 99 to
104): only _ctx and _var are initialized; _nativeType is left holding
whatever the uninitialized memory held (the junk parameter) and
_allocatedData is default constructed empty. -/
def OracleVariable.copyCtor (junk : DpiNativeTypeNum)
    (other : OracleVariable) : OracleVariable :=
  { ctx := other.ctx, nativeType := junk, var := other.var, allocatedData := [] }

/-- OracleVariable move constructor (oracle_helpers.cpp lines 106 to
111): like the copy constructor but the source's _var is nulled;
returns the new instance and the updated source. -/
def OracleVariable.moveCtor (junk : DpiNativeTypeNum)
    (other : OracleVariable) : OracleVariable × OracleVariable :=
  ({ ctx := other.ctx, nativeType := junk, var := other.var, allocatedData := [] },
   { other with var := none })

/-- OracleVariable copy assignment (oracle_helpers.cpp lines 113 to
121): assigns only _ctx and _var; the target's _nativeType and
_allocatedData keep their old values. -/
def OracleVariable.copyAssign (target src : OracleVariable) : OracleVariable :=
  { target with ctx := src.ctx, var := src.var }

/-- OracleVariable move assignment (oracle_helpers.cpp lines 123 to
131): assigns only _ctx and swaps _var (the target's _var was just
released and nulled, so the target takes the source's _var and the
source is left null); the target's _nativeType and _allocatedData keep
their old values. -/
def OracleVariable.moveAssign (target src : OracleVariable) :
    OracleVariable × OracleVariable :=
  ({ target with ctx := src.ctx, var := src.var }, { src with var := none })

/-- OracleVariable::returnedData (oracle_helpers.cpp lines 179 to
193): the native driver reports an element array, and the wrapper tags
each element with the instance's own _nativeType member. -/
def OracleVariable.returnedData (v : OracleVariable)
    (nativeData : List DpiData) : List OracleData :=
  nativeData.map fun d => { typeNum := v.nativeType, data := d }

/-- Claim C4: a successful newArrayVariable call with maxArraySize N
yields a variable whose allocatedData has exactly N ResultCell
entries, each carrying the configured native type tag and each
reporting isNull until a value is written into its slot (writing one
slot makes that slot non null and leaves every other slot
unchanged). -/
theorem c4_newArrayVariable_slots (ctx varHandle : Nat) (opts : VariableOpts) :
    (OracleConnection.newArrayVariable ctx varHandle opts).allocatedDataOf.length
        = opts.maxArraySize ∧
    ((OracleConnection.newArrayVariable ctx varHandle opts).allocatedDataOf.all
        fun c => decide (c.nativeType = opts.nativeTypeNum) && c.isNull) = true ∧
    (∀ pos bytes j, pos < opts.maxArraySize → j ≠ pos →
      (((OracleConnection.newArrayVariable ctx varHandle opts).writeSlot pos
          bytes).allocatedDataOf.getD pos default).isNull = false ∧
      ((OracleConnection.newArrayVariable ctx varHandle opts).writeSlot pos
          bytes).allocatedDataOf.getD j default
        = (OracleConnection.newArrayVariable ctx varHandle
            opts).allocatedDataOf.getD j default) := by
  refine ⟨?_, ?_, ?_⟩
  · simp [OracleConnection.newArrayVariable, OracleVariable.allocatedDataOf]
  · simp [OracleConnection.newArrayVariable, OracleVariable.allocatedDataOf,
      List.all_eq_true, List.mem_replicate]
    exact Or.inr ⟨rfl, rfl⟩
  · intro pos bytes j hpos hj
    have hlen : pos <
        (OracleConnection.newArrayVariable ctx varHandle opts).allocatedData.length := by
      simpa [OracleConnection.newArrayVariable] using hpos
    constructor
    · have hself := getD_set_self
        (OracleConnection.newArrayVariable ctx varHandle opts).allocatedData pos
        ({ typeNum := ((OracleConnection.newArrayVariable ctx varHandle
              opts).allocatedData.getD pos default).typeNum,
           data := { isNull := false, value := .vBytes bytes } }) default hlen
      simp only [OracleVariable.writeSlot, OracleVariable.allocatedDataOf]
      rw [hself]
      simp [OracleData.isNull, dpiData_getIsNull]
    · have hne := getD_set_ne
        (OracleConnection.newArrayVariable ctx varHandle opts).allocatedData pos j
        ({ typeNum := ((OracleConnection.newArrayVariable ctx varHandle
              opts).allocatedData.getD pos default).typeNum,
           data := { isNull := false, value := .vBytes bytes } }) default
        (fun hpj => hj hpj.symm)
      simpa [OracleVariable.writeSlot, OracleVariable.allocatedDataOf] using hne

/-- Witness for c4_newArrayVariable_slots: a three slot byte variable,
writing slot 1 and inspecting slots 1 and 2. -/
theorem c4_newArrayVariable_slots_witness :
    (1 : Nat) < 3 ∧ (2 : Nat) ≠ 1 ∧
    ((OracleConnection.newArrayVariable 0 7
        { dbTypeNum := 1, nativeTypeNum := .bytes, maxArraySize := 3,
          isArray := true,
          opts := .byteBuffer { size := 16, sizeIsBytes := false } }).allocatedDataOf.length = 3 ∧
     ((OracleConnection.newArrayVariable 0 7
        { dbTypeNum := 1, nativeTypeNum := .bytes, maxArraySize := 3,
          isArray := true,
          opts := .byteBuffer { size := 16, sizeIsBytes := false } }).allocatedDataOf.all
        fun c => decide (c.nativeType = DpiNativeTypeNum.bytes) && c.isNull) = true ∧
     (∀ pos bytes j, pos < 3 → j ≠ pos →
      (((OracleConnection.newArrayVariable 0 7
          { dbTypeNum := 1, nativeTypeNum := .bytes, maxArraySize := 3,
            isArray := true,
            opts := .byteBuffer { size := 16, sizeIsBytes := false } }).writeSlot pos
          bytes).allocatedDataOf.getD pos default).isNull = false ∧
      ((OracleConnection.newArrayVariable 0 7
          { dbTypeNum := 1, nativeTypeNum := .bytes, maxArraySize := 3,
            isArray := true,
            opts := .byteBuffer { size := 16, sizeIsBytes := false } }).writeSlot pos
          bytes).allocatedDataOf.getD j default
        = (OracleConnection.newArrayVariable 0 7
            { dbTypeNum := 1, nativeTypeNum := .bytes, maxArraySize := 3,
              isArray := true,
              opts := .byteBuffer { size := 16, sizeIsBytes := false } }).allocatedDataOf.getD
            j default)) :=
  ⟨by norm_num, by norm_num,
   c4_newArrayVariable_slots 0 7
     { dbTypeNum := 1, nativeTypeNum := .bytes, maxArraySize := 3,
       isArray := true, opts := .byteBuffer { size := 16, sizeIsBytes := false } }⟩

/-- Claim C9, as stated: it asserts among other things that the
target of a copy or move assignment ends with an empty allocatedData
sequence.  That fails: assignment transfers only the context back
reference and the variable pointer and leaves the target's previously
allocated slot view in place, so assigning a one slot variable into a
two slot variable leaves two entries, not zero. -/
theorem c9_counterexample :
    ¬ (∀ target src : OracleVariable,
        (OracleVariable.copyAssign target src).allocatedData = []) ∧
    (OracleVariable.copyAssign
        (OracleConnection.newArrayVariable 0 11
          { dbTypeNum := 2, nativeTypeNum := .int64, maxArraySize := 2,
            isArray := true, opts := .byteBuffer { size := 0, sizeIsBytes := false } })
        (OracleConnection.newArrayVariable 0 10
          { dbTypeNum := 1, nativeTypeNum := .bytes, maxArraySize := 1,
            isArray := false,
            opts := .byteBuffer { size := 16, sizeIsBytes := false } })).allocatedData.length
      = 2 := by
  constructor
  · intro hall
    have hbad := hall
      (OracleConnection.newArrayVariable 0 11
        { dbTypeNum := 2, nativeTypeNum := .int64, maxArraySize := 2,
          isArray := true, opts := .byteBuffer { size := 0, sizeIsBytes := false } })
      (OracleConnection.newArrayVariable 0 10
        { dbTypeNum := 1, nativeTypeNum := .bytes, maxArraySize := 1,
          isArray := false,
          opts := .byteBuffer { size := 16, sizeIsBytes := false } })
    revert hbad
    decide
  · decide

/-- Claim C9, amended: a copy or move of a BoundVariable transfers
only the context back reference and the native variable pointer.  Copy
and move construction leave the new instance's allocatedData empty and
its element type tag not set from the source's tag (it holds whatever
the uninitialized member memory held, the junk parameter, whatever
that is); copy and move assignment leave the target's existing
allocatedData and element tag unchanged, never setting them from the
source; returnedData on a copy constructed instance tags its cells
with that instance's own (uninitialized) tag, not with the source's
configured tag; move sources are left with a null variable pointer.
Only the instance originally returned by newArrayVariable carries its
slot view and configured tag. -/
theorem c9_copy_move_transfers_only_ctx_var (junk : DpiNativeTypeNum)
    (target src : OracleVariable) (nativeData : List DpiData) :
    ((OracleVariable.copyCtor junk src).ctx = src.ctx ∧
     (OracleVariable.copyCtor junk src).var = src.var ∧
     (OracleVariable.copyCtor junk src).allocatedData = [] ∧
     (OracleVariable.copyCtor junk src).nativeType = junk) ∧
    ((OracleVariable.moveCtor junk src).1.ctx = src.ctx ∧
     (OracleVariable.moveCtor junk src).1.var = src.var ∧
     (OracleVariable.moveCtor junk src).1.allocatedData = [] ∧
     (OracleVariable.moveCtor junk src).1.nativeType = junk ∧
     (OracleVariable.moveCtor junk src).2.var = none) ∧
    ((OracleVariable.copyAssign target src).ctx = src.ctx ∧
     (OracleVariable.copyAssign target src).var = src.var ∧
     (OracleVariable.copyAssign target src).allocatedData = target.allocatedData ∧
     (OracleVariable.copyAssign target src).nativeType = target.nativeType) ∧
    ((OracleVariable.moveAssign target src).1.ctx = src.ctx ∧
     (OracleVariable.moveAssign target src).1.var = src.var ∧
     (OracleVariable.moveAssign target src).1.allocatedData = target.allocatedData ∧
     (OracleVariable.moveAssign target src).1.nativeType = target.nativeType ∧
     (OracleVariable.moveAssign target src).2.var = none) ∧
    OracleVariable.returnedData (OracleVariable.copyCtor junk src) nativeData
      = nativeData.map fun d => { typeNum := junk, data := d } :=
  ⟨⟨rfl, rfl, rfl, rfl⟩, ⟨rfl, rfl, rfl, rfl, rfl⟩, ⟨rfl, rfl, rfl, rfl⟩,
   ⟨rfl, rfl, rfl, rfl, rfl⟩, rfl⟩

/-!
Table column width tracking (src/table.h lines 8 to 49, src/table.cpp
lines 10 to 49).  Strings are Lean strings; the value width is the
string length. -/

/-- Embedding of Table::Column (table.h lines 12 to 16): all three
widths are initialized to zero. -/
structure Column where
  minValueWidth : Nat := 0
  maxValueWidth : Nat := 0
  configuredWidth : Nat := 0
deriving DecidableEq

instance : Inhabited Column := ⟨{}⟩

/-- Embedding of the Table state (table.h lines 27 to 29): the flat
value vector, the column records, and the row count. -/
structure Table where
  values : List String
  columns : List Column
  numRows : Nat
deriving DecidableEq

/-- Table constructor (table.cpp lines 10 to 12): numColumns default
constructed columns, no values, no rows. -/
def Table.mkTable (numColumns : Nat) : Table :=
  { values := [], columns := List.replicate numColumns {}, numRows := 0 }

/-- std::vector::resize with default filling: keep the first n
entries, append empty strings to reach size n. -/
def resizeTo (l : List String) (n : Nat) : List String :=
  l.take n ++ List.replicate (n - l.length) ""

/-- Table::addRow (table.cpp lines 14 to 18): bump the row count,
resize the value vector to hold the new row, return the old row
index. -/
def Table.addRow (t : Table) : Table × Nat :=
  ({ t with
      numRows := t.numRows + 1,
      values := resizeTo t.values
        (t.numRows * t.columns.length + t.columns.length) },
   t.numRows)

/-- Table::setColumnValue (table.cpp lines 39 to 49) together with
_resolveValueIdx (lines 20 to 33): reject values wider than the
maximum Width, reject out of range column and row, then store the
value and fold its width into the column's running minimum and
maximum.  The final guard embeds std::vector::at on the value
vector. -/
def Table.setColumnValue (t : Table) (row col : Nat) (value : String) :
    Except String Table :=
  if value.length > 4294967295 then .error "table value width over flow"
  else if col ≥ t.columns.length then .error "column is out-of-range"
  else if row ≥ t.numRows then .error "row index is out-of-range"
  else if row * t.columns.length + col < t.values.length then
    let c0 := t.columns.getD col default
    let c1 := { c0 with
      minValueWidth := min c0.minValueWidth value.length,
      maxValueWidth := max c0.maxValueWidth value.length }
    .ok { t with
      values := t.values.set (row * t.columns.length + col) value,
      columns := t.columns.set col c1 }
  else .error "vector::_M_range_check"

/-- One operation of an addRow / setColumnValue sequence.  A failing
setColumnValue throws before mutating anything, so the table is
unchanged. -/
inductive TableOp where
  | addRow
  | setColumnValue (row col : Nat) (value : String)

/-- Dispatch one table operation. -/
def tableStep (t : Table) : TableOp → Table
  | .addRow => (Table.addRow t).1
  | .setColumnValue row col value =>
    match Table.setColumnValue t row col value with
    | .ok t2 => t2
    | .error _ => t

/-- Run a sequence of table operations from a fresh table. -/
def runTable (numColumns : Nat) (ops : List TableOp) : Table :=
  ops.foldl tableStep (Table.mkTable numColumns)

/-- Setting an element satisfying a predicate preserves an all. -/
theorem all_set {α : Type} (l : List α) (p : α → Bool) (i : Nat) (v : α)
    (hl : l.all p = true) (hv : p v = true) : (l.set i v).all p = true := by
  induction l generalizing i with
  | nil => simp
  | cons x t ih =>
    simp only [List.all_cons, Bool.and_eq_true] at hl
    cases i with
    | zero => simp [List.set, hv, hl.2]
    | succ n =>
      simp only [List.set, List.all_cons, Bool.and_eq_true]
      exact ⟨hl.1, ih n hl.2⟩

/-- A lookup in an all-satisfying list with an all-satisfying default
satisfies the predicate. -/
theorem all_getD {α : Type} (l : List α) (p : α → Bool) (i : Nat) (d : α)
    (hl : l.all p = true) (hd : p d = true) : p (l.getD i d) = true := by
  induction l generalizing i with
  | nil => simpa using hd
  | cons x t ih =>
    simp only [List.all_cons, Bool.and_eq_true] at hl
    cases i with
    | zero => simpa using hl.1
    | succ n =>
      simp only [List.getD_cons_succ]
      exact ih n hl.2

/-- A replicated list of an all-satisfying element satisfies an all. -/
theorem all_replicate {α : Type} (n : Nat) (a : α) (p : α → Bool)
    (ha : p a = true) : (List.replicate n a).all p = true := by
  induction n with
  | zero => simp
  | succ m ih => simp [List.replicate, ih, ha]

/-- One table operation preserves the all-minima-zero property. -/
theorem minWidth_zero_step (t : Table) (op : TableOp)
    (h : (t.columns.all fun c => c.minValueWidth == 0) = true) :
    ((tableStep t op).columns.all fun c => c.minValueWidth == 0) = true := by
  cases op with
  | addRow => simpa [tableStep, Table.addRow] using h
  | setColumnValue row col value =>
    cases hres : Table.setColumnValue t row col value with
    | error e => simpa [tableStep, hres] using h
    | ok t2 =>
      have hcols : t2.columns = t.columns.set col
          { (t.columns.getD col default) with
            minValueWidth :=
              min (t.columns.getD col default).minValueWidth value.length,
            maxValueWidth :=
              max (t.columns.getD col default).maxValueWidth value.length } := by
        unfold Table.setColumnValue at hres
        split at hres
        · exact absurd hres (by simp)
        · split at hres
          · exact absurd hres (by simp)
          · split at hres
            · exact absurd hres (by simp)
            · split at hres
              · rw [Except.ok.injEq] at hres
                rw [← hres]
              · exact absurd hres (by simp)
      have hc0 : ((t.columns.getD col default).minValueWidth == 0) = true :=
        all_getD t.columns (fun c => c.minValueWidth == 0) col default h (by rfl)
      have hc0eq : (t.columns.getD col default).minValueWidth = 0 := by
        simpa using hc0
      simp only [tableStep, hres, hcols]
      refine all_set t.columns _ col _ h ?_
      show (min (t.columns.getD col default).minValueWidth value.length == 0) = true
      rw [hc0eq]
      simp

/-- The all-minima-zero property holds after any operation sequence
from a state having it. -/
theorem minWidth_zero_run (ops : List TableOp) (t : Table)
    (h : (t.columns.all fun c => c.minValueWidth == 0) = true) :
    ((ops.foldl tableStep t).columns.all fun c => c.minValueWidth == 0) = true := by
  induction ops generalizing t with
  | nil => exact h
  | cons op rest ih => exact ih (tableStep t op) (minWidth_zero_step t op h)

/-- Claim C8: every column's minValueWidth starts at zero and
setColumnValue only ever replaces it by the minimum of itself and the
new value's width, so after any sequence of addRow and setColumnValue
operations every column still reports minValueWidth zero. -/
theorem c8_minValueWidth_stays_zero (numColumns : Nat) (ops : List TableOp) :
    ((runTable numColumns ops).columns.all fun c => c.minValueWidth == 0) = true :=
  minWidth_zero_run ops (Table.mkTable numColumns)
    (all_replicate numColumns ({} : Column) (fun c => c.minValueWidth == 0) (by rfl))
